import Mathlib

/-!
Shallow embedding of the deterministic chat classification and screening
scoring engine of the digital-psychological-intervention-system repository.

The classifier (`classify`, `buildResponse`) is embedded from the chat
classification service source; the scorer (`scorePHQ9`, `scoreGAD7`) from the
screening scoring service source.  JavaScript numbers are modelled by `Rat`
(all quantities involved are small rationals, exactly representable as
doubles), millisecond timestamps by `Int`, possibly-absent object properties
by `Option`, and a thrown exception by `Except.error`.
-/

deriving instance DecidableEq for Except

/-- Model of JavaScript `needle` being a prefix of the character list. -/
def startsWithL : List Char → List Char → Bool
  | [], _ => true
  | _ :: _, [] => false
  | a :: as, b :: bs => a == b && startsWithL as bs

/-- `containsSeq needle hay`: `needle` occurs as a contiguous subsequence of `hay`. -/
def containsSeq (needle : List Char) : List Char → Bool
  | [] => needle.isEmpty
  | h :: t => startsWithL needle (h :: t) || containsSeq needle t

/-- Model of JavaScript `hay.includes(needle)` (substring test). -/
def includes (hay needle : String) : Bool :=
  containsSeq needle.data hay.data

/-- Model of JavaScript `s.toLowerCase()` (ASCII case fold suffices here). -/
def toLowerStr (s : String) : String :=
  String.mk (s.data.map Char.toLower)

/-- A screening record as consumed by `classify`.  `createdAt` is the parsed
millisecond timestamp (`none` models a missing or unparseable date, whose
`new Date(...)` arithmetic yields `NaN`); `severityBand` is `none` when the
property is absent. -/
structure Screening where
  createdAt : Option Int
  severityBand : Option String
deriving DecidableEq, Repr

/-- The classification result produced by `classify`. -/
structure Classification where
  category : String
  severity : String
  crisis : Bool
  confidence : Rat
deriving DecidableEq, Repr

/-- Keyword triggers for each category, in declaration order (CATEGORY_TRIGGERS). -/
def CATEGORY_TRIGGERS : List (String × List String) :=
  [ ("ANXIETY",
     ["anxious", "nervous", "panic", "racing heart", "short of breath", "worry",
      "restless", "tense", "fear", "phobia", "overwhelmed", "stressed out",
      "can\x27t calm down", "butterflies", "sweating", "trembling", "dread"]),
    ("DEPRESSION",
     ["sad", "depressed", "hopeless", "worthless", "empty", "lonely",
      "no energy", "tired all the time", "can\x27t sleep", "no motivation",
      "nothing matters", "give up", "pointless", "numb", "crying",
      "no interest", "isolated", "darkness"]),
    ("STRESS_BURNOUT",
     ["stressed", "burnout", "exhausted", "overwhelmed", "pressure",
      "too much work", "can\x27t cope", "breaking point", "workload",
      "deadline stress", "performance anxiety", "juggling too much"]),
    ("SLEEP",
     ["can\x27t sleep", "insomnia", "nightmares", "tired", "fatigue",
      "staying up late", "tossing and turning", "sleep problems",
      "waking up early", "restless sleep", "no rest"]),
    ("ACADEMIC_STRESS",
     ["exam stress", "failing", "grades", "study pressure", "academic pressure",
      "can\x27t focus", "procrastination", "behind in studies", "test anxiety",
      "assignment stress", "performance pressure", "academic failure"]),
    ("SOCIAL_ISOLATION",
     ["alone", "lonely", "no friends", "isolated", "social anxiety",
      "can\x27t connect", "withdrawn", "nobody understands", "left out",
      "social pressure", "awkward", "shy"]),
    ("CRISIS",
     ["suicidal", "end it all", "harm myself", "self-harm", "kill myself",
      "life not worth living", "want to die", "suicide", "cut myself",
      "overdose", "jump", "hanging", "razor", "pills", "end my life",
      "better off dead", "no point living", "can\x27t go on"]) ]

/-- The crisis keyword list (CATEGORY_TRIGGERS.CRISIS). -/
def crisisKeywords : List String :=
  (List.lookup "CRISIS" CATEGORY_TRIGGERS).getD []

/-- The non-crisis categories in declaration order (the `forEach` skips CRISIS). -/
def nonCrisisTriggers : List (String × List String) :=
  CATEGORY_TRIGGERS.filter (fun p => p.1 ≠ "CRISIS")

/-- Match ratio of one keyword list against the normalized text: matched
keyword count divided by list length (`matches / keywords.length`).  `mkRat`
is exact rational division, which agrees with the JavaScript double division
on these small fractions. -/
def catScore (normalizedText : String) (keywords : List String) : Rat :=
  mkRat ((keywords.filter (fun kw => includes normalizedText (toLowerStr kw))).length : Int)
    keywords.length

/-- The per-category scores, in declaration order (categoryScores). -/
def categoryScores (normalizedText : String) : List (String × Rat) :=
  nonCrisisTriggers.map (fun p => (p.1, catScore normalizedText p.2))

/-- Model of `Object.entries(categoryScores).sort(([,a],[,b]) => b - a)[0]`:
a stable descending sort followed by taking the head returns the first entry
attaining the maximum score. -/
def pickBest : List (String × Rat) → Option (String × Rat)
  | [] => none
  | x :: xs => some (xs.foldl (fun acc y => if acc.2 < y.2 then y else acc) x)

/-- Milliseconds timestamp used for ordering screenings; `none` dates never
reach this point (they fail the recency filter), `getD 0` is a harmless total
default. -/
def screeningTime (s : Screening) : Int :=
  s.createdAt.getD 0

/-- The recency filter: `(Date.now() - new Date(s.createdAt)) / 86400000 <= 60`.
A missing or unparseable date gives `NaN`, and every comparison with `NaN` is
false, so such records are filtered out. -/
def isRecent (now : Int) (s : Screening) : Bool :=
  match s.createdAt with
  | none => false
  | some t => decide (mkRat (now - t) (1000 * 60 * 60 * 24) ≤ 60)

/-- Model of `recentScreenings.sort((a, b) => dateOf b - dateOf a)[0]`:
stable descending sort by creation time, then head — the first record
attaining the maximal `createdAt`. -/
def pickLatest : List Screening → Option Screening
  | [] => none
  | x :: xs =>
      some (xs.foldl (fun acc y => if screeningTime acc < screeningTime y then y else acc) x)

/-- The screening augmentation step of `classify` (filter to 60 days, take the
latest, escalate severity according to its band). -/
def augmentSeverity (now : Int) (screenings : List Screening) (severity : String) : String :=
  match pickLatest (screenings.filter (isRecent now)) with
  | none => severity
  | some latest =>
      if latest.severityBand = some "severe" ∨ latest.severityBand = some "moderate-severe" then
        "high"
      else if latest.severityBand = some "moderate" ∧ severity = "low" then
        "moderate"
      else severity

/-- Embedding of `classify(text, history, screenings)`.  `now` makes the one
read of `Date.now()` an explicit parameter; `history` is accepted and, as in
the source, never read. -/
def classify (text : String) (history : List String) (screenings : List Screening)
    (now : Int) : Classification :=
  let normalizedText := toLowerStr text
  let hasCrisisKeywords := crisisKeywords.any (fun kw => includes normalizedText (toLowerStr kw))
  if hasCrisisKeywords then
    ⟨"CRISIS", "crisis", true, 1⟩
  else
    match pickBest (categoryScores normalizedText) with
    | none => ⟨"GENERAL", "low", false, 0⟩
    | some best =>
        if best.2 = 0 then
          ⟨"GENERAL", "low", false, 0⟩
        else
          let severity : String :=
            if mkRat 3 5 < best.2 then "high"
            else if mkRat 3 10 < best.2 then "moderate"
            else "low"
          ⟨best.1, augmentSeverity now screenings severity, false, best.2⟩

/-- A localized text pair, as stored in the interpretation tables. -/
structure LocalizedText where
  en : String
  hi : String
deriving DecidableEq, Repr

/-- The result of a successful screening scoring call. -/
structure ScreeningResult where
  score : Rat
  maxScore : Nat
  severityBand : String
  interpretation : LocalizedText
deriving DecidableEq, Repr

/-- PHQ-9 interpretation table. -/
def phq9Interpretations : List (String × LocalizedText) :=
  [ ("minimal",
     ⟨"Minimal depression symptoms. Your responses suggest you may have few or no symptoms of depression.",
      "न्यूनतम अवसाद के लक्षण। आपके उत्तर सुझाते हैं कि आपमें अवसाद के कम या कोई लक्षण नहीं हैं।"⟩),
    ("mild",
     ⟨"Mild depression symptoms. You may be experiencing some symptoms that could benefit from attention and self-care.",
      "हल्के अवसाद के लक्षण। आप कुछ ऐसे लक्षण अनुभव कर रहे हों जिनमें देखभाल और ध्यान की आवश्यकता हो।"⟩),
    ("moderate",
     ⟨"Moderate depression symptoms. Consider speaking with a mental health professional about your symptoms.",
      "मध्यम अवसाद के लक्षण। अपने लक्षणों के बारे में किसी मानसिक स्वास्थ्य पेशेवर से बात करने पर विचार करें।"⟩),
    ("moderate-severe",
     ⟨"Moderate to severe depression symptoms. It\x27s recommended to seek professional help to address these symptoms.",
      "मध्यम से गंभीर अवसाद के लक्षण। इन लक्षणों के लिए पेशेवर सहायता लेने की सिफारिश की जाती है।"⟩),
    ("severe",
     ⟨"Severe depression symptoms. Please consider seeking immediate professional help. These symptoms can significantly impact your daily life.",
      "गंभीर अवसाद के लक्षण। कृपया तत्काल पेशेवर सहायता लेने पर विचार करें। ये लक्षण आपके दैनिक जीवन को महत्वपूर्ण रूप से प्रभावित कर सकते हैं।"⟩) ]

/-- `getPHQ9Interpretation`: table lookup with fallback to the minimal band. -/
def getPHQ9Interpretation (severityBand : String) : LocalizedText :=
  (List.lookup severityBand phq9Interpretations).getD
    ((List.lookup "minimal" phq9Interpretations).getD ⟨"", ""⟩)

/-- GAD-7 interpretation table. -/
def gad7Interpretations : List (String × LocalizedText) :=
  [ ("minimal",
     ⟨"Minimal anxiety symptoms. Your responses suggest you may have few or no symptoms of anxiety.",
      "न्यूनतम चिंता के लक्षण। आपके उत्तर सुझाते हैं कि आपमें चिंता के कम या कोई लक्षण नहीं हैं।"⟩),
    ("mild",
     ⟨"Mild anxiety symptoms. You may be experiencing some anxiety that could benefit from relaxation techniques and self-care.",
      "हल्की चिंता के लक्षण। आप कुछ चिंता अनुभव कर रहे हों जिसमें आराम की तकनीक और स्वयं की देखभाल से फायदा हो सकता है।"⟩),
    ("moderate",
     ⟨"Moderate anxiety symptoms. Consider learning anxiety management techniques or speaking with a counsellor.",
      "मध्यम चिंता के लक्षण। चिंता प्रबंधन तकनीक सीखने या काउंसलर से बात करने पर विचार करें।"⟩),
    ("severe",
     ⟨"Severe anxiety symptoms. It\x27s recommended to seek professional help. These symptoms may be significantly impacting your daily functioning.",
      "गंभीर चिंता के लक्षण। पेशेवर सहायता लेने की सिफारिश की जाती है। ये लक्षण आपके दैनिक कार्यकलाप को महत्वपूर्ण रूप से प्रभावित कर सकते हैं।"⟩) ]

/-- `getGAD7Interpretation`: table lookup with fallback to the minimal band. -/
def getGAD7Interpretation (severityBand : String) : LocalizedText :=
  (List.lookup severityBand gad7Interpretations).getD
    ((List.lookup "minimal" gad7Interpretations).getD ⟨"", ""⟩)

/-- `Number.isInteger(answer) && answer >= 0 && answer <= 3` for one answer.
JavaScript numbers are modelled by rationals; an integer is one with
denominator 1. -/
def isValidAnswer (answer : Rat) : Bool :=
  answer.den == 1 && decide (0 ≤ answer) && decide (answer ≤ 3)

/-- Embedding of `scorePHQ9(answers)`; a thrown `Error` is `Except.error` of
its message. -/
def scorePHQ9 (answers : List Rat) : Except String ScreeningResult :=
  if answers.length ≠ 9 then
    .error "PHQ-9 requires exactly 9 answers"
  else if ¬ (answers.all isValidAnswer) then
    .error "PHQ-9 answers must be integers between 0 and 3"
  else
    let totalScore := answers.foldl (fun sum answer => sum + answer) 0
    let severityBand :=
      if totalScore ≤ 4 then "minimal"
      else if totalScore ≤ 9 then "mild"
      else if totalScore ≤ 14 then "moderate"
      else if totalScore ≤ 19 then "moderate-severe"
      else "severe"
    .ok ⟨totalScore, 27, severityBand, getPHQ9Interpretation severityBand⟩

/-- Embedding of `scoreGAD7(answers)`. -/
def scoreGAD7 (answers : List Rat) : Except String ScreeningResult :=
  if answers.length ≠ 7 then
    .error "GAD-7 requires exactly 7 answers"
  else if ¬ (answers.all isValidAnswer) then
    .error "GAD-7 answers must be integers between 0 and 3"
  else
    let totalScore := answers.foldl (fun sum answer => sum + answer) 0
    let severityBand :=
      if totalScore ≤ 4 then "minimal"
      else if totalScore ≤ 9 then "mild"
      else if totalScore ≤ 14 then "moderate"
      else "severe"
    .ok ⟨totalScore, 21, severityBand, getGAD7Interpretation severityBand⟩

/-- A response template object.  JavaScript template objects are heterogeneous
(category templates carry validation/strategies/psychoeducation, the crisis
template carries safety fragments), so every property is optional and an
absent property reads as `none` (JavaScript `undefined`). -/
structure Template where
  validation : Option String
  strategies : Option (List String)
  psychoeducation : Option String
  next_steps : Option String
  immediate_safety : Option String
  crisis_resources : Option String
  support_available : Option String
deriving DecidableEq, Repr

/-- A category template (validation, strategies, psychoeducation, next_steps). -/
def mkCat (validation : String) (strategies : List String)
    (psychoeducation next_steps : String) : Template :=
  ⟨some validation, some strategies, some psychoeducation, some next_steps, none, none, none⟩

/-- The crisis template (immediate_safety, crisis_resources, support_available,
next_steps). -/
def mkCrisis (immediate_safety crisis_resources support_available next_steps : String) :
    Template :=
  ⟨none, none, none, some next_steps, some immediate_safety, some crisis_resources,
   some support_available⟩

/-- The response template tables (RESPONSE_TEMPLATES), keyed by language then
category. -/
def RESPONSE_TEMPLATES : List (String × List (String × Template)) :=
  [ ("en",
     [ ("ANXIETY",
        mkCat "I understand you\x27re feeling anxious right now. That\x27s a very real and valid experience."
          ["Try the 4-7-8 breathing technique: Breathe in for 4, hold for 7, exhale for 8.",
           "Ground yourself using the 5-4-3-2-1 technique: Name 5 things you see, 4 you can touch, 3 you hear, 2 you smell, 1 you taste.",
           "Progressive muscle relaxation can help: Tense and release each muscle group from your toes to your head."]
          "Anxiety is your body\x27s natural response to stress. While uncomfortable, these feelings are temporary and manageable."
          "Consider taking our anxiety screening (GAD-7) or booking a session with a counsellor for ongoing support."),
       ("DEPRESSION",
        mkCat "I hear that you\x27re going through a difficult time. These feelings of sadness and emptiness are real."
          ["Try to maintain a daily routine, even a simple one.",
           "Engage in small, achievable activities that used to bring you joy.",
           "Consider reaching out to a trusted friend or family member."]
          "Depression affects how you think, feel, and act. It\x27s a medical condition that can be treated effectively."
          "Taking our depression screening (PHQ-9) can help assess your symptoms. Professional support is available."),
       ("STRESS_BURNOUT",
        mkCat "Feeling overwhelmed by stress and responsibilities is more common than you might think."
          ["Break large tasks into smaller, manageable steps.",
           "Practice saying \x27no\x27 to additional commitments when possible.",
           "Schedule regular breaks and self-care activities."]
          "Chronic stress can lead to burnout, affecting your physical and mental health. Recovery is possible with proper support."
          "Consider stress management techniques and speaking with a counsellor about workload management."),
       ("SLEEP",
        mkCat "Sleep difficulties can be frustrating and impact many areas of your life."
          ["Maintain a consistent sleep schedule, even on weekends.",
           "Create a relaxing bedtime routine without screens.",
           "Keep your bedroom cool, dark, and quiet."]
          "Good sleep hygiene is essential for mental health. Sleep problems often improve with consistent practices."
          "If sleep problems persist, consider discussing them with a healthcare provider or counsellor."),
       ("ACADEMIC_STRESS",
        mkCat "Academic pressure can feel overwhelming, especially when you want to do well."
          ["Break study sessions into focused 25-minute blocks with short breaks.",
           "Create a realistic study schedule that includes time for rest.",
           "Reach out to teachers or academic advisors when you need help."]
          "Academic stress is common among students. Learning effective study strategies can reduce anxiety and improve performance."
          "Our counsellors can help with study strategies and managing academic pressure."),
       ("SOCIAL_ISOLATION",
        mkCat "Feeling disconnected from others can be lonely and painful."
          ["Start with small social interactions, like greeting classmates or colleagues.",
           "Join clubs or activities aligned with your interests.",
           "Consider online communities related to your hobbies or concerns."]
          "Social connections are vital for mental health. Building relationships takes time and practice."
          "Our peer support forum might be a good place to start connecting with others who understand."),
       ("CRISIS",
        mkCrisis "I\x27m very concerned about what you\x27ve shared. Your life has value, and help is available right now."
          "Please reach out immediately to a crisis helpline or emergency services if you\x27re in immediate danger."
          "You don\x27t have to go through this alone. Professional help and support are available."
          "Please consider speaking with a mental health professional as soon as possible.") ]),
    ("hi",
     [ ("ANXIETY",
        mkCat "मैं समझ सकता हूँ कि आप अभी चिंतित महसूस कर रहे हैं। यह एक वास्तविक और मान्य अनुभव है।"
          ["4-7-8 श्वास तकनीक आज़माएं: 4 की गिनती में सांस लें, 7 तक रोकें, 8 में छोड़ें।",
           "5-4-3-2-1 तकनीक से खुद को स्थिर करें: 5 चीजें देखें, 4 को छुएं, 3 सुनें, 2 सूंघें, 1 चखें।"]
          "चिंता तनाव के लिए आपके शरीर की प्राकृतिक प्रतिक्रिया है। असहज होने पर भी, ये भावनाएं अस्थायी हैं।"
          "हमारी चिंता जांच (GAD-7) लेने या काउंसलर के साथ सत्र बुक करने पर विचार करें।") ]) ]

/-- The response bundle returned by `buildResponse`.  The crisis and generic
responses carry no category/severity echo, so those are optional. -/
structure ResponseBundle where
  message : String
  quickReplies : List String
  showCrisisBanner : Bool
  nextSteps : Option String
  category : Option String
  severity : Option String
deriving DecidableEq, Repr

/-- JavaScript template-literal interpolation of a possibly-absent string
property: `undefined` prints as "undefined" and does not throw. -/
def showJs : Option String → String
  | some s => s
  | none => "undefined"

/-- Embedding of `buildResponse(classification, language)`.  A thrown
`TypeError` (property access on `undefined`) is `Except.error`. -/
def buildResponse (classification : Classification) (language : String) :
    Except String ResponseBundle :=
  let templates :=
    (List.lookup language RESPONSE_TEMPLATES).getD
      ((List.lookup "en" RESPONSE_TEMPLATES).getD [])
  if classification.crisis then
    match List.lookup "CRISIS" templates with
    | none => .error "TypeError: cannot read properties of undefined"
    | some template =>
        .ok ⟨showJs template.immediate_safety ++ " " ++ showJs template.crisis_resources
               ++ " " ++ showJs template.support_available,
             ["Show crisis resources", "Connect with counsellor", "Find helplines"],
             true, template.next_steps, none, none⟩
  else
    match List.lookup classification.category templates with
    | none =>
        .ok ⟨"I\x27m here to listen and support you. Can you tell me more about what\x27s on your mind?",
             ["Take screening test", "Book counselling", "Browse resources"],
             false, none, none, none⟩
    | some template =>
        match template.strategies with
        | none => .error "TypeError: cannot read properties of undefined"
        | some allStrategies =>
            let strategies := allStrategies.take 2
            .ok ⟨showJs template.validation ++ " " ++ String.intercalate " " strategies
                   ++ " " ++ showJs template.psychoeducation,
                 ["Tell me more", "Take screening", "Book session", "Browse resources"],
                 false, template.next_steps,
                 some classification.category, some classification.severity⟩

/-- The fold used by `pickBest` returns the first entry attaining the maximal
score: the input splits around the result, everything before it scores
strictly less, and nothing scores more.  This is exactly what a stable
descending sort followed by taking the head produces. -/
theorem foldBest_spec (xs : List (String × Rat)) (x : String × Rat) :
    ∃ m pre post,
      xs.foldl (fun acc y => if acc.2 < y.2 then y else acc) x = m ∧
      x :: xs = pre ++ m :: post ∧
      (∀ p ∈ pre, p.2 < m.2) ∧
      (∀ p ∈ x :: xs, p.2 ≤ m.2) := by
  induction xs generalizing x with
  | nil =>
      exact ⟨x, [], [], rfl, rfl, by simp, by simp⟩
  | cons y ys ih =>
      simp only [List.foldl_cons]
      by_cases hxy : x.2 < y.2
      · rw [if_pos hxy]
        obtain ⟨m, pre, post, hfold, hdec, hpre, hall⟩ := ih y
        refine ⟨m, x :: pre, post, hfold, ?_, ?_, ?_⟩
        · rw [List.cons_append, ← hdec]
        · intro p hp
          rcases List.mem_cons.mp hp with rfl | hp
          · exact lt_of_lt_of_le hxy (hall y (List.mem_cons_self _ _))
          · exact hpre p hp
        · intro p hp
          rcases List.mem_cons.mp hp with rfl | hp
          · exact le_of_lt (lt_of_lt_of_le hxy (hall y (List.mem_cons_self _ _)))
          · exact hall p hp
      · rw [if_neg hxy]
        obtain ⟨m, pre, post, hfold, hdec, hpre, hall⟩ := ih x
        cases pre with
        | nil =>
            simp only [List.nil_append] at hdec
            have hx : x = m := by injection hdec
            have hys : ys = post := by injection hdec
            subst hx; subst hys
            refine ⟨x, [], y :: ys, hfold, rfl, by simp, ?_⟩
            intro p hp
            rcases List.mem_cons.mp hp with rfl | hp
            · exact le_refl _
            · rcases List.mem_cons.mp hp with rfl | hp
              · exact not_lt.mp hxy
              · exact hall p (List.mem_cons_of_mem _ hp)
        | cons z pre' =>
            simp only [List.cons_append] at hdec
            have hz : x = z := by injection hdec
            have hys : ys = pre' ++ m :: post := by injection hdec
            subst hz
            have hxm : x.2 < m.2 := hpre x (List.mem_cons_self _ _)
            refine ⟨m, x :: y :: pre', post, hfold, ?_, ?_, ?_⟩
            · rw [hys]; simp
            · intro p hp
              rcases List.mem_cons.mp hp with rfl | hp
              · exact hxm
              · rcases List.mem_cons.mp hp with rfl | hp
                · exact lt_of_le_of_lt (not_lt.mp hxy) hxm
                · exact hpre p (List.mem_cons_of_mem _ hp)
            · intro p hp
              rcases List.mem_cons.mp hp with rfl | hp
              · exact hall _ (List.mem_cons_self _ _)
              · rcases List.mem_cons.mp hp with rfl | hp
                · exact le_trans (not_lt.mp hxy) (hall x (List.mem_cons_self _ _))
                · exact hall p (List.mem_cons_of_mem _ hp)

/-- `pickBest` only returns entries of its input. -/
theorem pickBest_mem {l : List (String × Rat)} {m : String × Rat}
    (h : pickBest l = some m) : m ∈ l := by
  cases l with
  | nil => simp [pickBest] at h
  | cons x xs =>
      obtain ⟨m', pre, post, hfold, hdec, _, _⟩ := foldBest_spec xs x
      simp only [pickBest, hfold, Option.some.injEq] at h
      subst h
      rw [hdec]
      exact List.mem_append_right _ (List.mem_cons_self _ _)

/-- The fold used by `pickLatest` returns a record of the input whose
creation time is maximal. -/
theorem foldLatest_spec (xs : List Screening) (x : Screening) :
    (xs.foldl (fun acc y => if screeningTime acc < screeningTime y then y else acc) x) ∈ x :: xs ∧
    ∀ s ∈ x :: xs,
      screeningTime s ≤
        screeningTime (xs.foldl (fun acc y => if screeningTime acc < screeningTime y then y else acc) x) := by
  induction xs generalizing x with
  | nil => simp
  | cons y ys ih =>
      simp only [List.foldl_cons]
      by_cases h : screeningTime x < screeningTime y
      · rw [if_pos h]
        obtain ⟨hmem, hmax⟩ := ih y
        constructor
        · rcases List.mem_cons.mp hmem with h1 | h1
          · rw [h1]; exact List.mem_cons_of_mem _ (List.mem_cons_self _ _)
          · exact List.mem_cons_of_mem _ (List.mem_cons_of_mem _ h1)
        · intro s hs
          rcases List.mem_cons.mp hs with rfl | hs
          · exact le_trans (le_of_lt h) (hmax y (List.mem_cons_self _ _))
          · exact hmax s hs
      · rw [if_neg h]
        obtain ⟨hmem, hmax⟩ := ih x
        constructor
        · rcases List.mem_cons.mp hmem with h1 | h1
          · rw [h1]; exact List.mem_cons_self _ _
          · exact List.mem_cons_of_mem _ (List.mem_cons_of_mem _ h1)
        · intro s hs
          rcases List.mem_cons.mp hs with rfl | hs
          · exact hmax _ (List.mem_cons_self _ _)
          · rcases List.mem_cons.mp hs with rfl | hs
            · exact le_trans (not_lt.mp h) (hmax x (List.mem_cons_self _ _))
            · exact hmax s (List.mem_cons_of_mem _ hs)

/-- `pickLatest` only returns records of its input, and always one of maximal
creation time. -/
theorem pickLatest_spec {l : List Screening} {m : Screening}
    (h : pickLatest l = some m) : m ∈ l ∧ ∀ s ∈ l, screeningTime s ≤ screeningTime m := by
  cases l with
  | nil => simp [pickLatest] at h
  | cons x xs =>
      obtain ⟨hmem, hmax⟩ := foldLatest_spec xs x
      simp only [pickLatest, Option.some.injEq] at h
      subst h
      exact ⟨hmem, hmax⟩

/-- Every entry of `categoryScores` is a non-crisis category. -/
theorem categoryScores_fst_ne_crisis (nt : String) :
    ∀ p ∈ categoryScores nt, p.1 ≠ "CRISIS" := by
  intro p hp
  simp only [categoryScores, List.mem_map] at hp
  obtain ⟨q, hq, rfl⟩ := hp
  simp only [nonCrisisTriggers] at hq
  have h2 := (List.mem_filter.mp hq).2
  exact of_decide_eq_true h2

/-- The severity escalation step never produces the crisis tier. -/
theorem augmentSeverity_ne_crisis {sev : String} (h : sev ≠ "crisis")
    (now : Int) (scr : List Screening) : augmentSeverity now scr sev ≠ "crisis" := by
  unfold augmentSeverity
  cases pickLatest (scr.filter (isRecent now)) with
  | none => exact h
  | some latest =>
      dsimp only
      split_ifs
      · decide
      · decide
      · exact h

/-- C1: Crisis short-circuit — whenever any entry of the fixed CRISIS keyword
list occurs (case-insensitively) as a substring of the input text, `classify`
returns the crisis classification `{CRISIS, crisis, true, 1.0}` for every
history and screenings argument, with no category scoring and no influence
from history or screenings. -/
theorem classify_crisis_short_circuit (text : String) (history : List String)
    (screenings : List Screening) (now : Int)
    (h : ∃ kw ∈ crisisKeywords, includes (toLowerStr text) (toLowerStr kw) = true) :
    classify text history screenings now = ⟨"CRISIS", "crisis", true, 1⟩ := by
  have hany : (crisisKeywords.any fun kw => includes (toLowerStr text) (toLowerStr kw)) = true :=
    List.any_eq_true.mpr (by simpa using h)
  simp only [classify]
  rw [if_pos hany]

/-- Witness for C1 at the example text given in the specification. -/
theorem classify_crisis_short_circuit_witness :
    (∃ kw ∈ crisisKeywords, includes (toLowerStr "I want to kill myself") (toLowerStr kw) = true) ∧
    classify "I want to kill myself" [] [] 0 = ⟨"CRISIS", "crisis", true, 1⟩ :=
  ⟨by decide, classify_crisis_short_circuit "I want to kill myself" [] [] 0 (by decide)⟩

/-- C9: `classify` is deterministic (it is a pure function of text, screenings
and the sampled clock) and the history argument never influences the result:
any two history lists yield identical classifications. -/
theorem classify_deterministic_and_history_blind (text : String)
    (screenings : List Screening) (now : Int) (h1 h2 : List String) :
    classify text h1 screenings now = classify text h1 screenings now ∧
    classify text h1 screenings now = classify text h2 screenings now :=
  ⟨rfl, rfl⟩

/-- C10: Crisis-consistency invariant — in every result of `classify`, the
crisis flag, the CRISIS category and the crisis severity tier coincide, and a
crisis result always carries confidence 1. -/
theorem classify_crisis_consistency (text : String) (history : List String)
    (screenings : List Screening) (now : Int) :
    ((classify text history screenings now).crisis = true ↔
        (classify text history screenings now).category = "CRISIS") ∧
    ((classify text history screenings now).crisis = true ↔
        (classify text history screenings now).severity = "crisis") ∧
    ((classify text history screenings now).crisis = true →
        (classify text history screenings now).confidence = 1) := by
  simp only [classify]
  by_cases hc : (crisisKeywords.any fun kw => includes (toLowerStr text) (toLowerStr kw)) = true
  · rw [if_pos hc]
    simp
  · rw [if_neg hc]
    cases hb : pickBest (categoryScores (toLowerStr text)) with
    | none => simp
    | some best =>
        dsimp only
        by_cases h0 : best.2 = 0
        · rw [if_pos h0]
          simp
        · rw [if_neg h0]
          have hcat : best.1 ≠ "CRISIS" :=
            categoryScores_fst_ne_crisis _ best (pickBest_mem hb)
          have hsev : (if mkRat 3 5 < best.2 then "high"
              else if mkRat 3 10 < best.2 then "moderate" else "low") ≠ "crisis" := by
            split_ifs <;> decide
          have haug := augmentSeverity_ne_crisis hsev now screenings
          refine ⟨?_, ?_, ?_⟩ <;> simp [hcat, haug]

/-- Characterization of `pickBest`: the result attains the maximum score and
everything declared before it scores strictly less (first-declared wins ties). -/
theorem pickBest_spec {l : List (String × Rat)} {m : String × Rat}
    (h : pickBest l = some m) :
    (∀ p ∈ l, p.2 ≤ m.2) ∧ ∃ pre post, l = pre ++ m :: post ∧ ∀ p ∈ pre, p.2 < m.2 := by
  cases l with
  | nil => simp [pickBest] at h
  | cons x xs =>
      obtain ⟨m', pre, post, hfold, hdec, hpre, hall⟩ := foldBest_spec xs x
      simp only [pickBest, hfold, Option.some.injEq] at h
      subst h
      exact ⟨hall, pre, post, hdec, hpre⟩

/-- A keyword list with no match in the text scores zero. -/
theorem catScore_eq_zero {nt : String} {kws : List String}
    (h : ∀ kw ∈ kws, includes nt (toLowerStr kw) = false) : catScore nt kws = 0 := by
  unfold catScore
  have hfil : kws.filter (fun kw => includes nt (toLowerStr kw)) = [] := by
    rw [List.filter_eq_nil_iff]
    intro a ha
    simp [h a ha]
  rw [hfil]
  simp

/-- C6 counterexample: the text "jump" contains no keyword of any non-crisis
category, yet `classify` returns the CRISIS classification (the claim as
stated forgot to exclude crisis keywords), not the GENERAL one. -/
theorem classify_no_match_counterexample :
    (nonCrisisTriggers.all fun p =>
        p.2.all fun kw => !(includes (toLowerStr "jump") (toLowerStr kw))) = true ∧
    classify "jump" [] [] 0 = ⟨"CRISIS", "crisis", true, 1⟩ ∧
    classify "jump" [] [] 0 ≠ ⟨"GENERAL", "low", false, 0⟩ :=
  ⟨by decide, by decide, by decide⟩

/-- C6 (amended): if the case-folded text contains no crisis keyword and no
keyword of any non-crisis category, `classify` returns exactly
`{GENERAL, low, false, 0.0}` for every history and screenings argument. -/
theorem classify_no_match_general (text : String) (history : List String)
    (screenings : List Screening) (now : Int)
    (hcrisis : ∀ kw ∈ crisisKeywords, includes (toLowerStr text) (toLowerStr kw) = false)
    (hnone : ∀ p ∈ nonCrisisTriggers, ∀ kw ∈ p.2,
      includes (toLowerStr text) (toLowerStr kw) = false) :
    classify text history screenings now = ⟨"GENERAL", "low", false, 0⟩ := by
  have hany : (crisisKeywords.any fun kw => includes (toLowerStr text) (toLowerStr kw)) = false := by
    rw [List.any_eq_false]
    intro kw hkw
    simp [hcrisis kw hkw]
  have hscores : ∀ p ∈ categoryScores (toLowerStr text), p.2 = 0 := by
    intro p hp
    simp only [categoryScores, List.mem_map] at hp
    obtain ⟨q, hq, rfl⟩ := hp
    exact catScore_eq_zero (hnone q hq)
  simp only [classify]
  rw [if_neg (by simp [hany])]
  cases hb : pickBest (categoryScores (toLowerStr text)) with
  | none => rfl
  | some best =>
      have h0 : best.2 = 0 := hscores best (pickBest_mem hb)
      dsimp only
      rw [if_pos h0]

/-- Witness for the amended C6 at the empty string example. -/
theorem classify_no_match_general_witness :
    (∀ kw ∈ crisisKeywords, includes (toLowerStr "") (toLowerStr kw) = false) ∧
    (∀ p ∈ nonCrisisTriggers, ∀ kw ∈ p.2, includes (toLowerStr "") (toLowerStr kw) = false) ∧
    classify "" [] [] 0 = ⟨"GENERAL", "low", false, 0⟩ :=
  ⟨by decide, by decide, classify_no_match_general "" [] [] 0 (by decide) (by decide)⟩

/-- C7: Deterministic tie-break — when no crisis keyword fires and the best
score is nonzero, `classify` selects exactly the entry returned by `pickBest`
over the category list enumerated in its fixed declaration order; that entry
attains the maximum match ratio, and every category declared before it scores
strictly less, so the first-declared category wins all ties. -/
theorem classify_tie_break (text : String) (history : List String)
    (screenings : List Screening) (now : Int) (best : String × Rat)
    (hcrisis : (crisisKeywords.any fun kw => includes (toLowerStr text) (toLowerStr kw)) = false)
    (hbest : pickBest (categoryScores (toLowerStr text)) = some best)
    (hpos : best.2 ≠ 0) :
    (classify text history screenings now).category = best.1 ∧
    (classify text history screenings now).confidence = best.2 ∧
    (categoryScores (toLowerStr text)).map Prod.fst =
      ["ANXIETY", "DEPRESSION", "STRESS_BURNOUT", "SLEEP", "ACADEMIC_STRESS", "SOCIAL_ISOLATION"] ∧
    (∀ p ∈ categoryScores (toLowerStr text), p.2 ≤ best.2) ∧
    ∃ pre post, categoryScores (toLowerStr text) = pre ++ best :: post ∧
      ∀ p ∈ pre, p.2 < best.2 := by
  have hcls : classify text history screenings now =
      ⟨best.1,
        augmentSeverity now screenings
          (if mkRat 3 5 < best.2 then "high"
           else if mkRat 3 10 < best.2 then "moderate" else "low"),
        false, best.2⟩ := by
    simp only [classify]
    rw [if_neg (by simp [hcrisis])]
    rw [hbest]
    dsimp only
    rw [if_neg hpos]
  obtain ⟨hmax, hdec⟩ := pickBest_spec hbest
  refine ⟨by rw [hcls], by rw [hcls], ?_, hmax, hdec⟩
  simp only [categoryScores, List.map_map]
  rfl

/-- Witness for C7 at a genuine tie: "workload awkward" matches one keyword of
STRESS_BURNOUT and one of SOCIAL_ISOLATION (both ratio 1/12); the
first-declared STRESS_BURNOUT wins. -/
theorem classify_tie_break_witness :
    (crisisKeywords.any fun kw =>
        includes (toLowerStr "workload awkward") (toLowerStr kw)) = false ∧
    pickBest (categoryScores (toLowerStr "workload awkward")) =
      some ("STRESS_BURNOUT", mkRat 1 12) ∧
    catScore (toLowerStr "workload awkward")
        ((List.lookup "SOCIAL_ISOLATION" CATEGORY_TRIGGERS).getD []) = mkRat 1 12 ∧
    (classify "workload awkward" [] [] 0).category = "STRESS_BURNOUT" := by
  refine ⟨by decide, by decide, by decide, ?_⟩
  exact (classify_tie_break "workload awkward" [] [] 0 ("STRESS_BURNOUT", mkRat 1 12)
    (by decide) (by decide) (by decide)).1

/-- Numeric rank of the severity tiers used to state that escalation never
lowers severity (low < moderate < high). -/
def sevRank : String → Nat
  | "low" => 0
  | "moderate" => 1
  | "high" => 2
  | _ => 3

/-- Filtering twice with the same predicate is the same as filtering once. -/
theorem filter_self_idem {α : Type} (p : α → Bool) (l : List α) :
    (l.filter p).filter p = l.filter p := by
  induction l with
  | nil => rfl
  | cons a l ih =>
      by_cases h : p a = true
      · simp [List.filter_cons, h, ih]
      · simp [List.filter_cons, h, ih]

/-- C5: Screening augmentation with the exact 60-day cutoff: a severe
screening 10 days old escalates a low-severity ANXIETY classification to
high, while the identical screening 90 days old has no effect; only
screenings passing the 60-day recency filter are ever consulted; the record
with maximal creation time among them decides via the severe/moderate-severe
to high and moderate+low to moderate rules; and the step never lowers
severity in the order low < moderate < high. -/
theorem classify_screening_augmentation :
    classify "anxious" [] [⟨some (-864000000), some "severe"⟩] 0 =
      ⟨"ANXIETY", "high", false, mkRat 1 17⟩ ∧
    classify "anxious" [] [⟨some (-7776000000), some "severe"⟩] 0 =
      ⟨"ANXIETY", "low", false, mkRat 1 17⟩ ∧
    (∀ (now : Int) (screenings : List Screening) (sev : String),
      augmentSeverity now screenings sev =
        augmentSeverity now (screenings.filter (isRecent now)) sev) ∧
    (∀ (now : Int) (screenings : List Screening) (sev : String) (latest : Screening),
      pickLatest (screenings.filter (isRecent now)) = some latest →
        latest ∈ screenings.filter (isRecent now) ∧
        (∀ s ∈ screenings.filter (isRecent now), screeningTime s ≤ screeningTime latest) ∧
        augmentSeverity now screenings sev =
          (if latest.severityBand = some "severe" ∨ latest.severityBand = some "moderate-severe"
            then "high"
            else if latest.severityBand = some "moderate" ∧ sev = "low" then "moderate"
            else sev)) ∧
    (∀ (now : Int) (screenings : List Screening) (sev : String),
      sev = "low" ∨ sev = "moderate" ∨ sev = "high" →
        sevRank sev ≤ sevRank (augmentSeverity now screenings sev)) := by
  refine ⟨by decide, by decide, ?_, ?_, ?_⟩
  · intro now screenings sev
    unfold augmentSeverity
    rw [filter_self_idem]
  · intro now screenings sev latest hlat
    obtain ⟨hmem, hmax⟩ := pickLatest_spec hlat
    refine ⟨hmem, hmax, ?_⟩
    unfold augmentSeverity
    rw [hlat]
  · intro now screenings sev hsev
    unfold augmentSeverity
    cases pickLatest (screenings.filter (isRecent now)) with
    | none => exact le_refl _
    | some latest =>
        dsimp only
        split_ifs with hA hB
        · rcases hsev with rfl | rfl | rfl <;> decide
        · rw [hB.2]
          decide
        · exact le_refl _

/-- Witness for C5: applying the augmentation characterization and the
monotonicity part at the concrete severe screening 10 days old. -/
theorem classify_screening_augmentation_witness :
    sevRank "low" ≤ sevRank (augmentSeverity 0 [⟨some (-864000000), some "severe"⟩] "low") ∧
    augmentSeverity 0 [⟨some (-864000000), some "severe"⟩] "low" = "high" := by
  have h4 := classify_screening_augmentation.2.2.2.1 0 [⟨some (-864000000), some "severe"⟩]
      "low" ⟨some (-864000000), some "severe"⟩ (by decide)
  have h5 := classify_screening_augmentation.2.2.2.2 0 [⟨some (-864000000), some "severe"⟩]
      "low" (Or.inl rfl)
  refine ⟨h5, ?_⟩
  rw [h4.2.2]
  decide

/-- C8 counterexample: a malformed screening (valid recent createdAt, missing
severityBand) does not crash `classify` and never escalates by itself, but it
is still selected as the latest screening, so the older well-formed severe
screening is ignored: with the malformed record present the severity stays
low, while the well-formed screenings alone give high — classification does
NOT proceed "using the remaining well-formed screenings". -/
theorem classify_malformed_counterexample :
    classify "anxious" [] [⟨some 0, none⟩, ⟨some (-864000000), some "severe"⟩] 0 =
      ⟨"ANXIETY", "low", false, mkRat 1 17⟩ ∧
    classify "anxious" [] [⟨some (-864000000), some "severe"⟩] 0 =
      ⟨"ANXIETY", "high", false, mkRat 1 17⟩ :=
  ⟨by decide, by decide⟩

/-- C8 (amended): `classify` never throws on malformed screening records —
it is total, records with a missing or unparseable `createdAt` are excluded
by the recency filter (removing them never changes any classification), and
a selected latest record with a missing `severityBand` leaves severity
unchanged; however such a record may still be the selected latest one. -/
theorem classify_malformed_robustness :
    (∀ (now : Int) (s : Screening), s.createdAt = none → isRecent now s = false) ∧
    (∀ (now : Int) (screenings : List Screening) (s : Screening), s.createdAt = none →
        s ∉ screenings.filter (isRecent now)) ∧
    (∀ (text : String) (history : List String) (screenings : List Screening) (now : Int),
        classify text history screenings now =
          classify text history (screenings.filter (fun s => s.createdAt.isSome)) now) ∧
    (∀ (now : Int) (screenings : List Screening) (sev : String) (latest : Screening),
        pickLatest (screenings.filter (isRecent now)) = some latest →
        latest.severityBand = none →
        augmentSeverity now screenings sev = sev) := by
  have hnone : ∀ (now : Int) (s : Screening), s.createdAt = none → isRecent now s = false := by
    intro now s h
    simp [isRecent, h]
  refine ⟨hnone, ?_, ?_, ?_⟩
  · intro now screenings s h hmem
    have := (List.mem_filter.mp hmem).2
    rw [hnone now s h] at this
    exact Bool.false_ne_true this
  · intro text history screenings now
    have haug : ∀ sev, augmentSeverity now screenings sev =
        augmentSeverity now (screenings.filter (fun s => s.createdAt.isSome)) sev := by
      intro sev
      unfold augmentSeverity
      have hfil : (screenings.filter (fun s => s.createdAt.isSome)).filter (isRecent now) =
          screenings.filter (isRecent now) := by
        rw [List.filter_filter]
        apply List.filter_congr
        intro s _
        cases h : s.createdAt <;> simp [isRecent, h]
      rw [hfil]
    simp only [classify, haug]
  · intro now screenings sev latest hlat hband
    unfold augmentSeverity
    rw [hlat]
    dsimp only
    rw [if_neg (by simp [hband]), if_neg (by simp [hband])]

/-- Witness for the amended C8 at concrete malformed records. -/
theorem classify_malformed_robustness_witness :
    isRecent 0 ⟨none, some "severe"⟩ = false ∧
    augmentSeverity 0 [⟨some 0, none⟩, ⟨some (-864000000), some "severe"⟩] "low" = "low" := by
  refine ⟨classify_malformed_robustness.1 0 ⟨none, some "severe"⟩ rfl, ?_⟩
  exact classify_malformed_robustness.2.2.2 0
    [⟨some 0, none⟩, ⟨some (-864000000), some "severe"⟩] "low" ⟨some 0, none⟩
    (by decide) rfl

/-- The scorer fold is summation: `reduce((sum, a) => sum + a, 0)`. -/
theorem foldl_add_eq (l : List Rat) (c : Rat) :
    l.foldl (fun sum answer => sum + answer) c = c + l.sum := by
  induction l generalizing c with
  | nil => simp
  | cons a l ih =>
      simp only [List.foldl_cons, List.sum_cons, ih]
      ring

/-- A list of answers each in [0,3] sums to a value in [0, 3·length]. -/
theorem sum_bounds (l : List Rat) (h : ∀ a ∈ l, (0 : Rat) ≤ a ∧ a ≤ 3) :
    0 ≤ l.sum ∧ l.sum ≤ 3 * (l.length : Rat) := by
  induction l with
  | nil => simp
  | cons a l ih =>
      obtain ⟨h0, h3⟩ := h a (List.mem_cons_self _ _)
      obtain ⟨ih0, ih3⟩ := ih fun b hb => h b (List.mem_cons_of_mem _ hb)
      constructor
      · simp only [List.sum_cons]
        exact add_nonneg h0 ih0
      · simp only [List.sum_cons, List.length_cons]
        push_cast
        linarith

/-- `isValidAnswer` is exactly the integrality-and-range predicate of the
source (`Number.isInteger(a) && a >= 0 && a <= 3`). -/
theorem isValidAnswer_iff (a : Rat) :
    isValidAnswer a = true ↔ (a.den = 1 ∧ 0 ≤ a ∧ a ≤ 3) := by
  unfold isValidAnswer
  simp [Bool.and_eq_true, and_assoc]

/-- C3: Scoring law — on a vector of exactly 9 (resp. 7) integers in [0,3],
`scorePHQ9` (resp. `scoreGAD7`) returns the sum of the answers as score,
maxScore 27 (resp. 21), the severity band chosen by the exact inclusive
thresholds of the source, and the score is bounded by 0..27 (resp. 0..21). -/
theorem scoring_law (answers : List Rat) :
    (answers.length = 9 → (∀ a ∈ answers, a.den = 1 ∧ 0 ≤ a ∧ a ≤ 3) →
      scorePHQ9 answers =
        Except.ok ⟨answers.sum, 27,
          (if answers.sum ≤ 4 then "minimal"
           else if answers.sum ≤ 9 then "mild"
           else if answers.sum ≤ 14 then "moderate"
           else if answers.sum ≤ 19 then "moderate-severe"
           else "severe"),
          getPHQ9Interpretation
            (if answers.sum ≤ 4 then "minimal"
             else if answers.sum ≤ 9 then "mild"
             else if answers.sum ≤ 14 then "moderate"
             else if answers.sum ≤ 19 then "moderate-severe"
             else "severe")⟩ ∧
      0 ≤ answers.sum ∧ answers.sum ≤ 27) ∧
    (answers.length = 7 → (∀ a ∈ answers, a.den = 1 ∧ 0 ≤ a ∧ a ≤ 3) →
      scoreGAD7 answers =
        Except.ok ⟨answers.sum, 21,
          (if answers.sum ≤ 4 then "minimal"
           else if answers.sum ≤ 9 then "mild"
           else if answers.sum ≤ 14 then "moderate"
           else "severe"),
          getGAD7Interpretation
            (if answers.sum ≤ 4 then "minimal"
             else if answers.sum ≤ 9 then "mild"
             else if answers.sum ≤ 14 then "moderate"
             else "severe")⟩ ∧
      0 ≤ answers.sum ∧ answers.sum ≤ 21) := by
  constructor
  · intro hlen hvalid
    have hall : answers.all isValidAnswer = true := by
      rw [List.all_eq_true]
      intro a ha
      exact (isValidAnswer_iff a).mpr (hvalid a ha)
    have hb := sum_bounds answers fun a ha => (hvalid a ha).2
    rw [hlen] at hb
    norm_num at hb
    refine ⟨?_, hb⟩
    unfold scorePHQ9
    rw [if_neg (by simp [hlen])]
    rw [if_neg (by simp [hall])]
    simp only [foldl_add_eq, zero_add]
  · intro hlen hvalid
    have hall : answers.all isValidAnswer = true := by
      rw [List.all_eq_true]
      intro a ha
      exact (isValidAnswer_iff a).mpr (hvalid a ha)
    have hb := sum_bounds answers fun a ha => (hvalid a ha).2
    rw [hlen] at hb
    norm_num at hb
    refine ⟨?_, hb⟩
    unfold scoreGAD7
    rw [if_neg (by simp [hlen])]
    rw [if_neg (by simp [hall])]
    simp only [foldl_add_eq, zero_add]

/-- Witness for C3 at a concrete PHQ-9 vector summing to 10 and a concrete
GAD-7 vector summing to 5. -/
theorem scoring_law_witness :
    (([3, 3, 3, 0, 0, 0, 0, 0, 1] : List Rat).length = 9 ∧
      (∀ a ∈ ([3, 3, 3, 0, 0, 0, 0, 0, 1] : List Rat), a.den = 1 ∧ 0 ≤ a ∧ a ≤ 3) ∧
      0 ≤ ([3, 3, 3, 0, 0, 0, 0, 0, 1] : List Rat).sum ∧
      ([3, 3, 3, 0, 0, 0, 0, 0, 1] : List Rat).sum ≤ 27) ∧
    (([1, 1, 1, 1, 1, 0, 0] : List Rat).length = 7 ∧
      (∀ a ∈ ([1, 1, 1, 1, 1, 0, 0] : List Rat), a.den = 1 ∧ 0 ≤ a ∧ a ≤ 3) ∧
      0 ≤ ([1, 1, 1, 1, 1, 0, 0] : List Rat).sum ∧
      ([1, 1, 1, 1, 1, 0, 0] : List Rat).sum ≤ 21) :=
  ⟨⟨by decide, by decide,
      ((scoring_law [3, 3, 3, 0, 0, 0, 0, 0, 1]).1 (by decide) (by decide)).2⟩,
   ⟨by decide, by decide,
      ((scoring_law [1, 1, 1, 1, 1, 0, 0]).2 (by decide) (by decide)).2⟩⟩

/-- C4: Invalid-input rejection — `scorePHQ9` (resp. `scoreGAD7`) throws
exactly when the answers are not 9 (resp. 7) integers in [0,3]: a wrong
length yields the length error message, a bad element (given the right
length) yields the range/integrality error message, and a valid vector
yields a result; invalid vectors never produce a score. -/
theorem invalid_input_rejection (answers : List Rat) :
    (answers.length ≠ 9 →
      scorePHQ9 answers = Except.error "PHQ-9 requires exactly 9 answers") ∧
    (answers.length = 9 → ¬ (∀ a ∈ answers, a.den = 1 ∧ 0 ≤ a ∧ a ≤ 3) →
      scorePHQ9 answers = Except.error "PHQ-9 answers must be integers between 0 and 3") ∧
    (answers.length = 9 → (∀ a ∈ answers, a.den = 1 ∧ 0 ≤ a ∧ a ≤ 3) →
      ∃ r, scorePHQ9 answers = Except.ok r) ∧
    (answers.length ≠ 7 →
      scoreGAD7 answers = Except.error "GAD-7 requires exactly 7 answers") ∧
    (answers.length = 7 → ¬ (∀ a ∈ answers, a.den = 1 ∧ 0 ≤ a ∧ a ≤ 3) →
      scoreGAD7 answers = Except.error "GAD-7 answers must be integers between 0 and 3") ∧
    (answers.length = 7 → (∀ a ∈ answers, a.den = 1 ∧ 0 ≤ a ∧ a ≤ 3) →
      ∃ r, scoreGAD7 answers = Except.ok r) := by
  have hbad : ¬ (∀ a ∈ answers, a.den = 1 ∧ 0 ≤ a ∧ a ≤ 3) →
      ¬ (answers.all isValidAnswer = true) := by
    intro hinv hall
    exact hinv fun a ha => (isValidAnswer_iff a).mp (List.all_eq_true.mp hall a ha)
  have hgood : (∀ a ∈ answers, a.den = 1 ∧ 0 ≤ a ∧ a ≤ 3) →
      answers.all isValidAnswer = true := by
    intro hv
    rw [List.all_eq_true]
    intro a ha
    exact (isValidAnswer_iff a).mpr (hv a ha)
  refine ⟨?_, ?_, ?_, ?_, ?_, ?_⟩
  · intro hlen
    unfold scorePHQ9
    rw [if_pos hlen]
  · intro hlen hinv
    unfold scorePHQ9
    rw [if_neg (by simp [hlen])]
    rw [if_pos (hbad hinv)]
  · intro hlen hv
    cases h : scorePHQ9 answers with
    | ok r => exact ⟨r, rfl⟩
    | error e =>
        unfold scorePHQ9 at h
        rw [if_neg (by simp [hlen]), if_neg (by simp [hgood hv])] at h
        exact Except.noConfusion h
  · intro hlen
    unfold scoreGAD7
    rw [if_pos hlen]
  · intro hlen hinv
    unfold scoreGAD7
    rw [if_neg (by simp [hlen])]
    rw [if_pos (hbad hinv)]
  · intro hlen hv
    cases h : scoreGAD7 answers with
    | ok r => exact ⟨r, rfl⟩
    | error e =>
        unfold scoreGAD7 at h
        rw [if_neg (by simp [hlen]), if_neg (by simp [hgood hv])] at h
        exact Except.noConfusion h

/-- Witness for C4: a PHQ-9 vector of 8 answers is rejected citing length, a
9-answer vector containing 4 and one containing 1/2 are rejected citing the
integer range, and a GAD-7 vector of 8 answers is rejected citing length. -/
theorem invalid_input_rejection_witness :
    scorePHQ9 [0, 0, 0, 0, 0, 0, 0, 0] = Except.error "PHQ-9 requires exactly 9 answers" ∧
    scorePHQ9 [0, 0, 0, 0, 0, 0, 0, 0, 4] =
      Except.error "PHQ-9 answers must be integers between 0 and 3" ∧
    scorePHQ9 [0, 0, 0, 0, 0, 0, 0, 0, mkRat 1 2] =
      Except.error "PHQ-9 answers must be integers between 0 and 3" ∧
    scoreGAD7 [0, 0, 0, 0, 0, 0, 0, 0] = Except.error "GAD-7 requires exactly 7 answers" :=
  ⟨(invalid_input_rejection [0, 0, 0, 0, 0, 0, 0, 0]).1 (by decide),
   (invalid_input_rejection [0, 0, 0, 0, 0, 0, 0, 0, 4]).2.1 (by decide) (by decide),
   (invalid_input_rejection [0, 0, 0, 0, 0, 0, 0, 0, mkRat 1 2]).2.1 (by decide) (by decide),
   (invalid_input_rejection [0, 0, 0, 0, 0, 0, 0, 0]).2.2.2.1 (by decide)⟩

/-- C2 is violated by the code: the crisis classification produced by
`classify` for a crisis message, rendered in the supported language "hi",
throws a TypeError, because the Hindi template table exists (so the
language-level fallback to English does not fire) but has no CRISIS entry and
the crisis branch reads its fields without a guard. -/
theorem buildResponse_crisis_hindi_throws :
    classify "I want to kill myself" [] [] 0 = ⟨"CRISIS", "crisis", true, 1⟩ ∧
    buildResponse ⟨"CRISIS", "crisis", true, 1⟩ "hi" =
      Except.error "TypeError: cannot read properties of undefined" :=
  ⟨by decide, by decide⟩
